import Mathlib

/-!
Shallow embedding of the carrot auto-overtake decision layer
(src/carrot: overtake_decision.py, lane_change_verification.py,
auto_overtake_controller.py, return_strategy.py, status_management.py,
config.py).

Conventions of the embedding:
* Python floats/ints are modelled as rationals (`ℚ`); lane indices and
  counters that the source keeps integral are `ℤ`/`ℕ`.
* `time.time() * 1000` is passed in explicitly as a `now : ℚ` argument.
* Mutation of the `control_state` / `config` / verification dictionaries is
  modelled by explicit state passing: each function returns the updated
  records next to its result.
* User-facing reason/status strings and debug prints are not modelled; all
  fields that feed back into control decisions are.
* Python's bankers rounding (`round`) is modelled by `roundHalfEven`.
-/

namespace AutoOvertake

/-- Road type, from config key road_type ('highway' / 'normal'). -/
inductive RoadType
  | highway
  | normal
  deriving DecidableEq, Repr

/-- Lane-count computation mode, from config key lane_count_mode.  The 'op'
mode always falls back to the automatic computation because
_get_op_lane_count in auto_overtake_controller.py returns None on every
path. -/
inductive LaneCountMode
  | manual
  | auto
  | op
  deriving DecidableEq, Repr

/-- Overtake / lane-change direction strings "LEFT" / "RIGHT". -/
inductive Direction
  | LEFT
  | RIGHT
  deriving DecidableEq, Repr

/-- Blinker state strings 'none' / 'left' / 'right' / 'hazard'. -/
inductive Blinker
  | off
  | left
  | right
  | hazard
  deriving DecidableEq, Repr

/-- Value of control_state key last_overtake_result:
'none' / 'success' / 'failed' / 'condition'. -/
inductive OvertakeResult
  | idle
  | success
  | failed
  | condition
  deriving DecidableEq, Repr

/-- The penalty weight table config key PENALTY_WEIGHTS (config.py). -/
structure PenaltyWeights where
  lead_relative_speed : ℚ
  side_lead_distance : ℚ
  side_relative_speed : ℚ
  lane_width : ℚ
  blindspot : ℚ
  curvature : ℚ
  min_speed_advantage : ℚ

/-- The configuration dictionary (config.py, _init_default_config), restricted
to the keys read by the embedded functions.  EARLY_OVERTAKE_SPEED_RATIO_MAX
models the source key for the early-overtake leader/ego speed-ratio ceiling. -/
structure Config where
  road_type : RoadType
  lane_count : ℤ
  current_lane_number : ℤ
  lane_count_mode : LaneCountMode
  manual_lane_count : ℤ
  shouldReturnToLane : Bool
  HIGHWAY_LEAD_MIN_SPEED : ℚ
  NORMAL_LEAD_MIN_SPEED : ℚ
  HIGHWAY_MIN_SPEED : ℚ
  NORMAL_ROAD_MIN_SPEED : ℚ
  CRUISE_SPEED_RATIO_THRESHOLD : ℚ
  FOLLOW_TIME_GAP_THRESHOLD : ℚ
  MAX_FOLLOW_TIME : ℚ
  LEAD_RELATIVE_SPEED_THRESHOLD : ℚ
  EARLY_OVERTAKE_SPEED_RATIO_MAX : ℚ
  EARLY_OVERTAKE_MIN_LEAD_SPEED : ℚ
  EARLY_OVERTAKE_MIN_DISTANCE : ℚ
  EARLY_OVERTAKE_MAX_DISTANCE : ℚ
  EARLY_OVERTAKE_MIN_SPEED_DIFF : ℚ
  MIN_LANE_WIDTH : ℚ
  SAFE_LANE_WIDTH : ℚ
  SIDE_LEAD_DISTANCE_MIN : ℚ
  SIDE_RELATIVE_SPEED_THRESHOLD : ℚ
  OVERTAKE_COOLDOWN_BASE : ℚ
  OVERTAKE_COOLDOWN_FAILED : ℚ
  OVERTAKE_COOLDOWN_SUCCESS : ℚ
  OVERTAKE_COOLDOWN_CONDITION : ℚ
  weights : PenaltyWeights
  PENALTY_THRESHOLD : ℚ
  MIN_SPEED_ADVANTAGE : ℚ

/-- The vehicle_data snapshot dictionary (status_management.py,
_init_vehicle_data), restricted to the fields read by the embedded
functions. -/
structure VehicleData where
  v_ego_kph : ℚ
  v_cruise_kph : ℚ
  lead_speed : ℚ
  lead_distance : ℚ
  lead_relative_speed : ℚ
  left_lead_speed : ℚ
  left_lead_distance : ℚ
  left_lead_relative_speed : ℚ
  right_lead_speed : ℚ
  right_lead_distance : ℚ
  right_lead_relative_speed : ℚ
  l_lane_width : ℚ
  r_lane_width : ℚ
  l_edge_dist : ℚ
  r_edge_dist : ℚ
  left_blindspot : Bool
  right_blindspot : Bool
  l_front_blind : Bool
  r_front_blind : Bool
  IsOnroad : Bool
  engaged : Bool
  system_auto_control : ℤ
  blinker : Blinker
  steering_angle : ℚ
  lat_a : ℚ

/-- A recorded verification event (lane_change_verification.py, the
entries appended to verification_events; the reasons list is not
modelled). -/
structure VerEvent where
  time : ℚ
  from_lane : ℤ
  to_lane : ℤ
  direction : Direction
  score : ℚ

/-- The state of the multi-source lane-change verification system
(lane_change_verification.py: the lane_change_verification dictionary
merged with the blinker_lane_change_tracker dictionary). -/
structure VerState where
  last_confirmed_lane : ℤ
  verification_events : List VerEvent
  confidence_score : ℚ
  min_confidence : ℚ
  last_blinker_state : Blinker
  blinker_pending : Bool
  blinker_start_time : ℚ
  blinker_expected : Option Blinker
  lane_before_blinker : ℤ

/-- Lane smoothing histories owned by the verification system object
(lane_number_history / lane_count_history, max_history_size = 10). -/
structure GeomState where
  lane_number_history : List ℤ
  lane_count_history : List ℚ

/-- The single trigger condition that get_trigger_conditions can report
(the source returns after the first append, so the list has at most one
element); payload carries the value interpolated into the source's
condition string, so that a changed value counts as a changed condition
in check_condition_stability. -/
inductive TriggerCond
  | early
  | maxFollow
  | leadSlow (rel : ℚ)
  | timeGap (gap : ℚ)
  | speedRatioLow (r : ℚ)
  deriving DecidableEq, Repr

/-- The control_state dictionary (status_management.py,
_init_control_state), restricted to the fields read or written by the
embedded functions. -/
structure CtrlState where
  isOvertaking : Bool
  overtakingCompleted : Bool
  overtakeSuccessCount : ℕ
  lastOvertakeDirection : Option Direction
  lastOvertakeTime : ℚ
  lane_change_in_progress : Bool
  lastLaneChangeCommandTime : ℚ
  net_lane_changes : ℤ
  max_return_attempts : ℕ
  return_attempts : ℕ
  return_conditions_met : Bool
  return_timer_start : ℚ
  original_lane_clear : Bool
  follow_start_time : Option ℚ
  is_following_slow_vehicle : Bool
  max_follow_time_reached : Bool
  last_overtake_result : OvertakeResult
  dynamic_cooldown : ℚ
  consecutive_failures : ℕ
  last_auto_overtake_time : ℚ
  return_timeout : ℚ
  is_auto_overtake : Bool
  op_control_cooldown : ℚ
  last_op_control_end_time : ℚ
  target_vehicle_tracker : Option Unit
  overtake_complete_timer : ℚ
  overtake_complete_duration : ℚ
  last_lane_number : ℤ
  completion_timer : ℚ
  condition_stability_timer : ℚ
  condition_stable_duration : ℚ
  condition_met_count : ℕ
  condition_met_threshold : ℕ
  last_condition_check_time : ℚ
  stable_condition_flags : Option TriggerCond
  quick_trigger_enabled : Bool
  quick_trigger_start : ℚ
  original_lane_number : ℤ
  overtake_start_count : Option ℕ

/-- Python's round(): round half to even, used by update_lane_number and
_calculate_auto_lane_count. -/
def roundHalfEven (q : ℚ) : ℤ :=
  let f := ⌊q⌋
  let r := q - (f : ℚ)
  if r < 1 / 2 then f
  else if 1 / 2 < r then f + 1
  else if f % 2 = 0 then f else f + 1

/-- Bounded append of collections.deque(maxlen=10) and of the manual
append-then-pop(0) histories (max_history_size = 10). -/
def pushBounded10 {α : Type} (xs : List α) (x : α) : List α :=
  let ys := xs ++ [x]
  if 10 < ys.length then ys.drop (ys.length - 10) else ys

/-- Multi-source verification scoring, verify_lane_change_multisource
(lane_change_verification.py lines 37-117).  Returns
(passed, verification_score); the reasons list is not modelled.  The
from_lane/to_lane arguments of the source are unused by the scoring. -/
def verifyLaneChangeMultisource (now : ℚ) (lane_change : ℤ) (vd : VehicleData)
    (ver : VerState) : Bool × ℚ :=
  let expected_blinker : Blinker := if lane_change = -1 then .left else .right
  let s1 : ℚ :=
    if vd.blinker = expected_blinker then 30
    else if vd.blinker ≠ Blinker.off then -20
    else 10
  let s2 : ℚ :=
    if ver.blinker_pending ∧ now - ver.blinker_start_time < 5000 ∧
        ver.blinker_expected = some expected_blinker then 20 else 0
  let sa := |vd.steering_angle|
  let s3 : ℚ := if 5 ≤ sa ∧ sa ≤ 30 then 15 else if 45 < sa then -10 else 0
  let la := |vd.lat_a|
  let s4 : ℚ :=
    if (0.1 : ℚ) ≤ la ∧ la ≤ (0.8 : ℚ) then 15 else if 1 < la then -10 else 0
  let s5 : ℚ := min 10 (ver.confidence_score / 10)
  let s6 : ℚ :=
    match ver.verification_events.getLast? with
    | some ev => if 3000 < now - ev.time then 10 else -15
    | none => 10
  let score := s1 + s2 + s3 + s4 + s5 + s6
  (decide ((0.6 : ℚ) ≤ score / 100), score)

/-- Blinker-based lane-change prediction, verify_blinker_based_lane_change
(lane_change_verification.py lines 119-143). -/
def verifyBlinkerBasedLaneChange (now : ℚ) (vd : VehicleData) (cfg : Config)
    (ver : VerState) : VerState :=
  let cb := vd.blinker
  let ver1 :=
    if cb ≠ ver.last_blinker_state ∧ cb ≠ Blinker.off then
      { ver with blinker_pending := true, blinker_start_time := now,
                 blinker_expected := some cb,
                 lane_before_blinker := cfg.current_lane_number }
    else if cb = Blinker.off ∧ ver.last_blinker_state ≠ Blinker.off ∧
        ver.blinker_pending then
      { ver with blinker_pending := false }
    else ver
  { ver1 with last_blinker_state := cb }

/-- Verified net-lane-change update, update_lane_based_net_changes
(lane_change_verification.py lines 145-224).  The source's current_lane
and last_lane parameters are overwritten from config / the confirmed lane
on entry and are therefore not taken here.  Returns the updated
(config, verification state, control state). -/
def updateLaneBasedNetChanges (now : ℚ) (vd : VehicleData) (cfg : Config)
    (ver : VerState) (ctrl : CtrlState) : Config × VerState × CtrlState :=
  let current := cfg.current_lane_number
  let last := ver.last_confirmed_lane
  if last = 0 then
    (cfg, { ver with last_confirmed_lane := current },
     { ctrl with last_lane_number := current })
  else
    let lane_change := current - last
    let step : Config × VerState × CtrlState :=
      if lane_change.natAbs = 1 then
        let vres := verifyLaneChangeMultisource now lane_change vd ver
        if vres.1 then
          let dir : Direction := if lane_change = -1 then .LEFT else .RIGHT
          let net : ℤ :=
            if 0 < ctrl.original_lane_number then
              ctrl.original_lane_number - current
            else if dir = .LEFT then ctrl.net_lane_changes + 1
            else ctrl.net_lane_changes - 1
          let ev : VerEvent :=
            { time := now, from_lane := last, to_lane := current,
              direction := dir, score := vres.2 }
          (cfg,
           { ver with last_confirmed_lane := current,
                      confidence_score := min 100 (ver.confidence_score + 5),
                      verification_events :=
                        pushBounded10 ver.verification_events ev },
           { ctrl with net_lane_changes := net,
                       target_vehicle_tracker := none })
        else
          ({ cfg with current_lane_number := last },
           { ver with confidence_score := max 0 (ver.confidence_score - 10) },
           ctrl)
      else if 1 < lane_change.natAbs then
        ({ cfg with current_lane_number := last },
         { ver with confidence_score := max 0 (ver.confidence_score - 20) },
         ctrl)
      else (cfg, ver, ctrl)
    let cfg1 := step.1
    let ver1 := step.2.1
    let ctrl1 := { step.2.2 with last_lane_number := current }
    (cfg1, verifyBlinkerBasedLaneChange now vd cfg1 ver1, ctrl1)

/-- Verification-system construction state (lane_change_verification.py,
LaneChangeVerificationSystem.__init__). -/
def initVerState : VerState :=
  { last_confirmed_lane := 0
    verification_events := []
    confidence_score := 100
    min_confidence := 60
    last_blinker_state := Blinker.off
    blinker_pending := false
    blinker_start_time := 0
    blinker_expected := none
    lane_before_blinker := 0 }

/-- Reset of the verification system, reset_verification_system
(lane_change_verification.py lines 226-237); also clears the
lane-number smoothing history. -/
def resetVerificationSystem (ver : VerState) (geom : GeomState) :
    VerState × GeomState :=
  ({ ver with last_confirmed_lane := 0,
              verification_events := [],
              confidence_score := 100,
              blinker_pending := false,
              blinker_start_time := 0,
              blinker_expected := none,
              lane_before_blinker := 0 },
   { geom with lane_number_history := [] })

/-- Post-OP-control cooldown check, check_op_control_cooldown
(overtake_decision.py lines 22-36).  Returns (blocked, state). -/
def checkOpControlCooldown (now : ℚ) (s : CtrlState) : Bool × CtrlState :=
  if 0 < s.op_control_cooldown then
    if now - s.last_op_control_end_time < s.op_control_cooldown then (true, s)
    else (false, { s with op_control_cooldown := 0 })
  else (false, s)

/-- Pure result of check_lead_vehicle_min_speed (overtake_decision.py
lines 118-143): leader absent passes; otherwise the leader speed must meet
the road-type floor (35 km/h highway, 20 km/h normal by default). -/
def checkLeadVehicleMinSpeedB (cfg : Config) (vd : VehicleData) : Bool :=
  if vd.lead_distance ≤ 0 then true
  else if cfg.road_type = RoadType.highway then
    decide (cfg.HIGHWAY_LEAD_MIN_SPEED ≤ vd.lead_speed)
  else
    decide (cfg.NORMAL_LEAD_MIN_SPEED ≤ vd.lead_speed)

/-- Stateful check_lead_vehicle_min_speed: on failure last_overtake_result
is set to 'condition'. -/
def checkLeadVehicleMinSpeed (cfg : Config) (vd : VehicleData) (s : CtrlState) :
    Bool × CtrlState :=
  if checkLeadVehicleMinSpeedB cfg vd then (true, s)
  else (false, { s with last_overtake_result := OvertakeResult.condition })

/-- Pure result of check_early_overtake_conditions (overtake_decision.py
lines 145-190): the early/long-range overtake trigger. -/
def checkEarlyOvertakeConditionsB (cfg : Config) (vd : VehicleData) : Bool :=
  if cfg.road_type ≠ RoadType.highway then false
  else if vd.lead_distance ≤ 0 ∨ vd.v_ego_kph ≤ 0 ∨ vd.lead_speed ≤ 0 ∨
      vd.v_cruise_kph ≤ 0 then false
  else if ¬ checkLeadVehicleMinSpeedB cfg vd then false
  else
    let ratioV := if 0 < vd.v_ego_kph then vd.lead_speed / vd.v_ego_kph else 1
    decide (ratioV ≤ cfg.EARLY_OVERTAKE_SPEED_RATIO_MAX ∧
      cfg.EARLY_OVERTAKE_MIN_LEAD_SPEED ≤ vd.lead_speed ∧
      cfg.EARLY_OVERTAKE_MIN_SPEED_DIFF ≤ vd.v_ego_kph - vd.lead_speed ∧
      cfg.EARLY_OVERTAKE_MIN_DISTANCE ≤ vd.lead_distance ∧
      vd.lead_distance ≤ cfg.EARLY_OVERTAKE_MAX_DISTANCE)

/-- Stateful check_early_overtake_conditions: the only state effect is the
'condition' result written by a failing leader-minimum-speed subcheck. -/
def checkEarlyOvertakeConditions (cfg : Config) (vd : VehicleData)
    (s : CtrlState) : Bool × CtrlState :=
  if cfg.road_type ≠ RoadType.highway then (false, s)
  else if vd.lead_distance ≤ 0 ∨ vd.v_ego_kph ≤ 0 ∨ vd.lead_speed ≤ 0 ∨
      vd.v_cruise_kph ≤ 0 then (false, s)
  else
    let r := checkLeadVehicleMinSpeed cfg vd s
    if r.1 = false then (false, r.2)
    else (checkEarlyOvertakeConditionsB cfg vd, r.2)

/-- Following time gap in seconds, calculate_time_gap (overtake_decision.py
lines 222-231). -/
def calculateTimeGap (vd : VehicleData) : ℚ :=
  if vd.lead_distance ≤ 0 ∨ vd.v_ego_kph ≤ 0 then 0
  else
    let v_ego_ms := vd.v_ego_kph / (3.6 : ℚ)
    if 0 < v_ego_ms then vd.lead_distance / v_ego_ms else 0

/-- Current trigger condition, get_trigger_conditions (overtake_decision.py
lines 192-220); the source returns after the first matching condition, so
the result is at most one condition. -/
def getTriggerConditions (cfg : Config) (vd : VehicleData) (s : CtrlState) :
    Option TriggerCond × CtrlState :=
  let r := checkEarlyOvertakeConditions cfg vd s
  if r.1 then (some TriggerCond.early, r.2)
  else if r.2.max_follow_time_reached then (some TriggerCond.maxFollow, r.2)
  else
    let ratioV := if 0 < vd.v_cruise_kph then vd.v_ego_kph / vd.v_cruise_kph else 1
    if vd.lead_relative_speed < cfg.LEAD_RELATIVE_SPEED_THRESHOLD then
      (some (TriggerCond.leadSlow vd.lead_relative_speed), r.2)
    else
      let tg := calculateTimeGap vd
      if 0 < tg ∧ tg ≤ cfg.FOLLOW_TIME_GAP_THRESHOLD then
        (some (TriggerCond.timeGap tg), r.2)
      else if ratioV < cfg.CRUISE_SPEED_RATIO_THRESHOLD then
        (some (TriggerCond.speedRatioLow ratioV), r.2)
      else (none, r.2)

/-- Condition-stability debounce, check_condition_stability
(overtake_decision.py lines 71-116). -/
def checkConditionStability (now : ℚ) (cond : Option TriggerCond)
    (s : CtrlState) : Bool × CtrlState :=
  match cond with
  | none =>
    (false, { s with condition_stability_timer := 0, condition_met_count := 0,
                     stable_condition_flags := none,
                     quick_trigger_enabled := false })
  | some c =>
    if s.stable_condition_flags ≠ some c then
      (false, { s with stable_condition_flags := some c,
                       condition_stability_timer := now,
                       condition_met_count := s.condition_met_count + 1,
                       last_condition_check_time := now })
    else
      let t := if s.condition_stability_timer = 0 then now
               else s.condition_stability_timer
      let stable_duration := now - t
      if s.condition_stable_duration ≤ stable_duration ∨
          s.condition_met_threshold ≤ s.condition_met_count then
        (true, { s with condition_stability_timer := t,
                        quick_trigger_enabled := true,
                        quick_trigger_start := now })
      else
        (false, { s with condition_stability_timer := t,
                         last_condition_check_time := now })

/-- Dynamic cooldown computation, calculate_dynamic_cooldown
(overtake_decision.py lines 354-381).  Returns the cooldown in
milliseconds together with the updated state (consecutive_failures and
dynamic_cooldown are written). -/
def calculateDynamicCooldown (cfg : Config) (s : CtrlState) : ℚ × CtrlState :=
  let base : ℚ × CtrlState :=
    match s.last_overtake_result with
    | OvertakeResult.success =>
      (cfg.OVERTAKE_COOLDOWN_SUCCESS, { s with consecutive_failures := 0 })
    | OvertakeResult.failed =>
      (cfg.OVERTAKE_COOLDOWN_FAILED,
       { s with consecutive_failures := s.consecutive_failures + 1 })
    | OvertakeResult.condition =>
      (cfg.OVERTAKE_COOLDOWN_CONDITION,
       { s with consecutive_failures := s.consecutive_failures + 1 })
    | OvertakeResult.idle => (cfg.OVERTAKE_COOLDOWN_BASE, s)
  let s1 := base.2
  let cd1 :=
    if 3 < s1.consecutive_failures then
      base.1 + min 10000 ((s1.consecutive_failures : ℚ) * 2000)
    else base.1
  let cd2 :=
    if cfg.road_type = RoadType.highway then max 5000 (cd1 * (0.8 : ℚ))
    else cd1 * (1.2 : ℚ)
  (cd2, { s1 with dynamic_cooldown := cd2 })

/-- Trigger-condition and stability-debounce phase of
check_overtake_conditions (overtake_decision.py lines 312-352), entered
once every hard gate has passed. -/
def checkOvertakeTriggerPhase (cfg : Config) (vd : VehicleData) (now : ℚ)
    (s4 : CtrlState) : Bool × CtrlState :=
  let r5 := getTriggerConditions cfg vd s4
  let r6 := checkConditionStability now r5.1 r5.2
  let s6 := r6.2
  if r6.1 ∨ s6.quick_trigger_enabled then
    let s7 :=
      if s6.quick_trigger_enabled then
        if 3000 < now - s6.quick_trigger_start then
          { s6 with quick_trigger_enabled := false }
        else s6
      else s6
    match r5.1 with
    | some _ => (true, s7)
    | none =>
      (false, { s7 with last_overtake_result := OvertakeResult.condition })
  else
    (false, { s6 with last_overtake_result := OvertakeResult.condition })

/-- Cooldown gate of check_overtake_conditions (overtake_decision.py
lines 297-310): the dynamic cooldown blocks the trigger phase unless
quick-trigger is active. -/
def checkOvertakeCooldownPhase (cfg : Config) (vd : VehicleData) (now : ℚ)
    (s3 : CtrlState) : Bool × CtrlState :=
  let r4 := calculateDynamicCooldown cfg s3
  if now - r4.2.lastOvertakeTime < r4.1 ∧
      r4.2.quick_trigger_enabled = false then
    (false, r4.2)
  else
    checkOvertakeTriggerPhase cfg vd now r4.2

/-- Leader-presence, cruise-ratio and minimum-ego-speed gates of
check_overtake_conditions (overtake_decision.py lines 265-310), entered
with the state after the early-trigger check. -/
def checkOvertakeLeadGates (cfg : Config) (vd : VehicleData) (now : ℚ)
    (s2 : CtrlState) : Bool × CtrlState :=
  let r3 := checkLeadVehicleMinSpeed cfg vd s2
  let s3 := r3.2
  if r3.1 = false then (false, s3)
  else if vd.lead_distance ≤ 0 then
    (false, { s3 with last_overtake_result := OvertakeResult.condition,
                      condition_stability_timer := 0,
                      condition_met_count := 0 })
  else
    let ratioV :=
      if 0 < vd.v_cruise_kph then vd.v_ego_kph / vd.v_cruise_kph else 1
    if (0.95 : ℚ) ≤ ratioV then
      (false, { s3 with
                  last_overtake_result := OvertakeResult.condition,
                  condition_stability_timer := 0,
                  condition_met_count := 0 })
    else if cfg.road_type = RoadType.highway ∧
        vd.v_ego_kph < cfg.HIGHWAY_MIN_SPEED then
      (false, { s3 with last_overtake_result := OvertakeResult.condition })
    else if cfg.road_type = RoadType.normal ∧
        vd.v_ego_kph < cfg.NORMAL_ROAD_MIN_SPEED then
      (false, { s3 with last_overtake_result := OvertakeResult.condition })
    else
      checkOvertakeCooldownPhase cfg vd now s3

/-- Onroad/engaged gates and the early-trigger shortcut of
check_overtake_conditions (overtake_decision.py lines 246-263), entered
with the state after the OP-control cooldown check. -/
def checkOvertakeOnroadGates (cfg : Config) (vd : VehicleData) (now : ℚ)
    (s1 : CtrlState) : Bool × CtrlState :=
  if vd.IsOnroad = false then
    (false, { s1 with last_overtake_result := OvertakeResult.condition })
  else if vd.engaged = false then
    (false, { s1 with last_overtake_result := OvertakeResult.condition })
  else
    let r2 := checkEarlyOvertakeConditions cfg vd s1
    let s2 := r2.2
    if r2.1 then
      (true, { s2 with condition_stability_timer := 0,
                       condition_met_count := 0,
                       quick_trigger_enabled := false })
    else
      checkOvertakeLeadGates cfg vd now s2

/-- Overtake trigger evaluation, check_overtake_conditions
(overtake_decision.py lines 233-352).  Returns (triggered, state). -/
def checkOvertakeConditions (cfg : Config) (vd : VehicleData) (now : ℚ)
    (s0 : CtrlState) : Bool × CtrlState :=
  if vd.system_auto_control = 1 then
    (false, { s0 with last_overtake_result := OvertakeResult.condition })
  else
    let r1 := checkOpControlCooldown now s0
    if r1.1 then
      (false, { r1.2 with last_overtake_result := OvertakeResult.condition })
    else
      checkOvertakeOnroadGates cfg vd now r1.2

/-- Side data lookup used by evaluate_overtake_effectiveness
(overtake_decision.py lines 385-392). -/
def sideLeadSpeed (vd : VehicleData) : Direction → ℚ
  | .LEFT => vd.left_lead_speed
  | .RIGHT => vd.right_lead_speed

/-- Side lead distance for a direction. -/
def sideLeadDistance (vd : VehicleData) : Direction → ℚ
  | .LEFT => vd.left_lead_distance
  | .RIGHT => vd.right_lead_distance

/-- Side lead relative speed for a direction. -/
def sideLeadRelSpeed (vd : VehicleData) : Direction → ℚ
  | .LEFT => vd.left_lead_relative_speed
  | .RIGHT => vd.right_lead_relative_speed

/-- Expected target-lane speed as computed inside
evaluate_overtake_effectiveness (overtake_decision.py lines 401-436). -/
def expectedTargetSpeed (vd : VehicleData) (d : Direction) : ℚ :=
  let sd := sideLeadDistance vd d
  if sd ≤ 0 then
    if 0 < vd.v_cruise_kph then vd.v_cruise_kph else vd.v_ego_kph + 15
  else
    let ss := sideLeadSpeed vd d
    let sr := sideLeadRelSpeed vd d
    let e := if 0 < ss then ss else vd.v_ego_kph + 10
    if sr < 0 then min e (vd.v_ego_kph + sr) else e

/-- Expected current-lane speed as computed inside
evaluate_overtake_effectiveness (overtake_decision.py line 439). -/
def expectedCurrentSpeed (vd : VehicleData) : ℚ :=
  if 0 < vd.lead_speed then vd.lead_speed else vd.v_ego_kph

/-- Minimum speed-advantage requirement of
evaluate_overtake_effectiveness (overtake_decision.py lines 441-445):
0 when the target side is empty, 5 km/h otherwise. -/
def minAdvantageReq (vd : VehicleData) (d : Direction) : ℚ :=
  if sideLeadDistance vd d ≤ 0 then 0 else 5

/-- Effectiveness scoring, evaluate_overtake_effectiveness
(overtake_decision.py lines 383-461); the reasons list is not modelled. -/
def evaluateOvertakeEffectiveness (cfg : Config) (vd : VehicleData)
    (d : Direction) : ℚ :=
  let sd := sideLeadDistance vd d
  let ss := sideLeadSpeed vd d
  let sr := sideLeadRelSpeed vd d
  let base : ℚ :=
    if sd ≤ 0 then 95
    else
      100
      - (if 0 < ss ∧ ss < vd.lead_speed - 2 then 50 else 0)
      - (if 0 < ss ∧ ss < vd.v_ego_kph - 8 then 60 else 0)
      - (if 0 < sd ∧ sd < 25 ∧ sr < -10 then 40 else 0)
      - (if 0 < sd ∧ sd < 40 ∧ sr < -15 then 35 else 0)
  let ets := expectedTargetSpeed vd d
  let ecs := expectedCurrentSpeed vd
  let ma := minAdvantageReq vd d
  let base2 :=
    if ets - ecs < ma then base - max 0 ((ma - (ets - ecs)) * 8) else base
  let base3 :=
    if d = Direction.RIGHT ∧ cfg.road_type = RoadType.highway then base2 - 8
    else base2
  max 0 base3

/-- Road-type / relative-speed adjusted effectiveness floor of
is_overtake_effective (overtake_decision.py lines 466-478): 65 on a
normal road, 70 on a highway, 75 when the target side's leader is slower
than ego by more than 10 km/h. -/
def minEffectiveness (cfg : Config) (vd : VehicleData) (d : Direction) : ℚ :=
  if (d = Direction.LEFT ∧ vd.left_lead_relative_speed < -10) ∨
      (d = Direction.RIGHT ∧ vd.right_lead_relative_speed < -10) then 75
  else if cfg.road_type = RoadType.highway then 70
  else 65

/-- Effectiveness gate, is_overtake_effective (overtake_decision.py
lines 463-485). -/
def isOvertakeEffective (cfg : Config) (vd : VehicleData) (d : Direction) :
    Bool :=
  decide (minEffectiveness cfg vd d ≤ evaluateOvertakeEffectiveness cfg vd d)

/-- Emergency-lane test, is_emergency_lane (overtake_decision.py
lines 696-706). -/
def isEmergencyLane (cfg : Config) (vd : VehicleData) (lane : ℤ) : Bool :=
  if cfg.road_type = RoadType.highway ∧ lane = cfg.lane_count then true
  else if lane = cfg.lane_count ∧ vd.r_lane_width < (2.8 : ℚ) then true
  else false

/-- Target lane of a candidate direction (overtake_decision.py
lines 518-521). -/
def targetLaneOf (cfg : Config) : Direction → ℤ
  | .LEFT => cfg.current_lane_number - 1
  | .RIGHT => cfg.current_lane_number + 1

/-- Lane suitability, evaluate_lane_suitability (overtake_decision.py
lines 513-632); returns the first component of the source's return value
(note the source's blind-spot early exit returns the accumulated penalty
of 100, not a suitability of 0). -/
def evaluateLaneSuitability (cfg : Config) (vd : VehicleData)
    (d : Direction) : ℚ :=
  let target := targetLaneOf cfg d
  if isEmergencyLane cfg vd target then 0
  else
    match d with
    | Direction.LEFT =>
      if vd.left_blindspot ∨ vd.l_front_blind then 100
      else
        let w := vd.l_lane_width
        let p1 : ℚ :=
          if w < cfg.MIN_LANE_WIDTH then 80
          else if w < cfg.SAFE_LANE_WIDTH then
            (cfg.SAFE_LANE_WIDTH - w) * cfg.weights.lane_width * 10
          else 0
        let p2 := if cfg.road_type = RoadType.highway ∧ target = 1 then
            p1 - 15 else p1
        let sd := vd.left_lead_distance
        let p3 : ℚ :=
          if sd ≤ 0 then p2 - 25
          else if sd < cfg.SIDE_LEAD_DISTANCE_MIN then
            p2 + (cfg.SIDE_LEAD_DISTANCE_MIN - sd) *
              cfg.weights.side_lead_distance
          else p2 - min ((sd - cfg.SIDE_LEAD_DISTANCE_MIN) * (0.5 : ℚ)) 20
        let sr := vd.left_lead_relative_speed
        let p4 : ℚ :=
          if 0 < sd ∧ sr ≠ 0 then
            if sr < -cfg.weights.min_speed_advantage then
              p3 + |sr| * cfg.weights.side_relative_speed
            else if cfg.weights.min_speed_advantage < sr then
              p3 - min (sr * (0.8 : ℚ)) 25
            else p3
          else p3
        max 0 (100 - max 0 p4)
    | Direction.RIGHT =>
      if vd.right_blindspot ∨ vd.r_front_blind then 100
      else
        let w := vd.r_lane_width
        let p1 : ℚ :=
          if w < cfg.MIN_LANE_WIDTH then 80
          else if w < cfg.SAFE_LANE_WIDTH then
            (cfg.SAFE_LANE_WIDTH - w) * cfg.weights.lane_width * 10
          else 0
        if isEmergencyLane cfg vd target then 0
        else
          let p2 := if cfg.road_type = RoadType.highway ∧
              target = cfg.lane_count then p1 + 10 else p1
          let sd := vd.right_lead_distance
          let p3 : ℚ :=
            if sd ≤ 0 then p2 - 25
            else if sd < cfg.SIDE_LEAD_DISTANCE_MIN then
              p2 + (cfg.SIDE_LEAD_DISTANCE_MIN - sd) *
                cfg.weights.side_lead_distance
            else p2 - min ((sd - cfg.SIDE_LEAD_DISTANCE_MIN) * (0.5 : ℚ)) 20
          let sr := vd.right_lead_relative_speed
          let p4 : ℚ :=
            if 0 < sd ∧ sr ≠ 0 then
              if sr < -cfg.weights.min_speed_advantage then
                p3 + |sr| * cfg.weights.side_relative_speed
              else if cfg.weights.min_speed_advantage < sr then
                p3 - min (sr * (0.8 : ℚ)) 25
              else p3
            else p3
          max 0 (100 - max 0 p4)

/-- Penalty of staying in the current lane, get_current_lane_penalty
(overtake_decision.py lines 634-650).  Its value feeds only the unused
target_advantage variable and status text in
_execute_overtake_decision. -/
def getCurrentLanePenalty (cfg : Config) (vd : VehicleData) : ℚ :=
  let p1 : ℚ :=
    if vd.lead_relative_speed < -cfg.MIN_SPEED_ADVANTAGE then
      |vd.lead_relative_speed| * cfg.weights.lead_relative_speed
    else 0
  let tg := calculateTimeGap vd
  let p2 : ℚ :=
    if 0 < tg ∧ tg < cfg.FOLLOW_TIME_GAP_THRESHOLD then
      (cfg.FOLLOW_TIME_GAP_THRESHOLD - tg) * 10
    else 0
  p1 + p2

/-- Geometrically available overtake directions,
get_available_overtake_directions (overtake_decision.py lines 652-694). -/
def getAvailableOvertakeDirections (cfg : Config) (vd : VehicleData) :
    List Direction :=
  let cur := cfg.current_lane_number
  let total := cfg.lane_count
  if cfg.road_type = RoadType.highway then
    if cur = 1 then
      if cur < total - 1 then [Direction.RIGHT] else []
    else if cur = total then []
    else
      (if 1 < cur then [Direction.LEFT] else []) ++
      (if cur < total - 1 then [Direction.RIGHT] else [])
  else
    (if 1 < cur then [Direction.LEFT] else []) ++
    (if cur < total ∧ isEmergencyLane cfg vd (cur + 1) = false then
      [Direction.RIGHT] else [])

/-- Combined direction score with the highway lane-position adjustment
applied inside the selection loop of _execute_overtake_decision
(auto_overtake_controller.py lines 544-546 and 576-586). -/
def adjustedScore (cfg : Config) (vd : VehicleData) (d : Direction) : ℚ :=
  let base := evaluateLaneSuitability cfg vd d *
    (evaluateOvertakeEffectiveness cfg vd d / 100)
  if cfg.road_type = RoadType.highway then
    if cfg.current_lane_number = cfg.lane_count ∧ d = Direction.LEFT then
      base + 15
    else if cfg.current_lane_number = 1 ∧ d = Direction.RIGHT then base - 10
    else base
  else base

/-- One step of the best-direction selection loop of
_execute_overtake_decision (auto_overtake_controller.py lines 568-595):
ineffective directions are skipped, and a direction is adopted when its
adjusted score exceeds both the penalty threshold and the best so far. -/
def selectStep (cfg : Config) (vd : VehicleData)
    (acc : Option Direction × ℚ) (d : Direction) : Option Direction × ℚ :=
  if isOvertakeEffective cfg vd d = false then acc
  else
    let sc := adjustedScore cfg vd d
    if cfg.PENALTY_THRESHOLD < sc ∧ acc.2 < sc then (some d, sc) else acc

/-- Best direction and score over the available directions
(auto_overtake_controller.py lines 563-595). -/
def selectBest (cfg : Config) (vd : VehicleData) (dirs : List Direction) :
    Option Direction × ℚ :=
  dirs.foldl (selectStep cfg vd) (none, 0)

/-- Final actual speed-advantage check of _execute_overtake_decision
(auto_overtake_controller.py lines 605-613). -/
def actualSpeedAdvantage (vd : VehicleData) (d : Direction) : ℚ :=
  let target := if 0 < sideLeadSpeed vd d then sideLeadSpeed vd d
                else vd.v_ego_kph + 10
  let cur := if 0 < vd.lead_speed then vd.lead_speed else vd.v_ego_kph
  target - cur

/-- Direction for which execute_overtake is invoked by
_execute_overtake_decision (auto_overtake_controller.py lines 507-640),
or none when no overtake is executed.  The analysis strings and the
unused target_advantage computation are not modelled. -/
def executeOvertakeDecision (cfg : Config) (vd : VehicleData) :
    Option Direction :=
  let dirs := getAvailableOvertakeDirections cfg vd
  let best := selectBest cfg vd dirs
  match best.1 with
  | some d =>
    if cfg.PENALTY_THRESHOLD < best.2 ∧ 3 ≤ actualSpeedAdvantage vd d then
      some d
    else none
  | none => none

/-- First (count, element) pair maximising the count, modelling
collections.Counter(history).most_common(1)[0]: ties are broken by first
occurrence in the list. -/
def mostCommon (l : List ℤ) : ℤ × ℕ :=
  l.foldl (fun acc x => if acc.2 < l.count x then (x, l.count x) else acc)
    (0, 0)

/-- Automatic lane-count estimation, _calculate_auto_lane_count
(auto_overtake_controller.py lines 139-175). -/
def calculateAutoLaneCount (cfg : Config) (vd : VehicleData)
    (geom : GeomState) : ℤ × GeomState :=
  let avg0 := (vd.l_lane_width + vd.r_lane_width) / 2
  let avg := if avg0 ≤ 0 then (3.2 : ℚ) else avg0
  let total_road_width := vd.l_edge_dist + vd.r_edge_dist
  if 0 < total_road_width ∧ 0 < avg then
    let estimated := total_road_width / avg
    let h := pushBounded10 geom.lane_count_history estimated
    let smoothed := h.sum / (h.length : ℚ)
    let lc0 := max 2 (min 5 (roundHalfEven smoothed))
    let lc := if cfg.road_type = RoadType.highway then max 2 (min 4 lc0)
              else max 2 (min 3 lc0)
    (lc, { geom with lane_count_history := h })
  else
    ((if cfg.road_type = RoadType.highway then 3 else 2), geom)

/-- Lane-count computation, calculate_lane_count
(auto_overtake_controller.py lines 114-137); the 'op' mode falls back into
the automatic path because _get_op_lane_count always returns None. -/
def calculateLaneCount (cfg : Config) (vd : VehicleData) (geom : GeomState) :
    Config × GeomState :=
  match cfg.lane_count_mode with
  | LaneCountMode.manual =>
    ({ cfg with lane_count := cfg.manual_lane_count }, geom)
  | LaneCountMode.auto =>
    let r := calculateAutoLaneCount cfg vd geom
    ({ cfg with lane_count := r.1 }, r.2)
  | LaneCountMode.op =>
    let r := calculateAutoLaneCount cfg vd geom
    ({ cfg with lane_count := r.1 }, r.2)

/-- Geometry-based lane-number update, update_lane_number
(auto_overtake_controller.py lines 187-240).  Writes the smoothed
geometry-derived lane estimate directly into config.current_lane_number;
it takes no verification state. -/
def updateLaneNumber (vd : VehicleData) (cfg0 : Config) (geom0 : GeomState) :
    Config × GeomState :=
  let r0 := calculateLaneCount cfg0 vd geom0
  let cfg := r0.1
  let geom := r0.2
  let total := cfg.lane_count
  let avg0 := (vd.l_lane_width + vd.r_lane_width) / 2
  let avg := if avg0 ≤ 0 then (3.2 : ℚ) else avg0
  if 0 < vd.l_edge_dist ∧ 0 < vd.r_edge_dist ∧ 0 < avg then
    let total_road_width := vd.l_edge_dist + vd.r_edge_dist
    let relative_position := vd.l_edge_dist / total_road_width
    let lane0 := 1 + roundHalfEven (relative_position * ((total : ℚ) - 1))
    let lane := max 1 (min total lane0)
    let hist := pushBounded10 geom.lane_number_history lane
    let geom1 := { geom with lane_number_history := hist }
    if 3 ≤ hist.length then
      let recent := hist.drop (hist.length - 3)
      if recent.all (fun x => x = recent.headD 0) then
        let stable := recent.headD 0
        if stable ≠ cfg.current_lane_number then
          ({ cfg with current_lane_number := stable }, geom1)
        else (cfg, geom1)
      else
        let mc := mostCommon hist
        if (hist.length : ℚ) * (0.6 : ℚ) < (mc.2 : ℚ) then
          if mc.1 ≠ cfg.current_lane_number then
            ({ cfg with current_lane_number := mc.1 }, geom1)
          else (cfg, geom1)
        else (cfg, geom1)
    else
      if lane ≠ cfg.current_lane_number then
        ({ cfg with current_lane_number := lane }, geom1)
      else (cfg, geom1)
  else (cfg, geom)

/-- Completion / timeout check of an in-progress overtake,
check_overtake_completion (auto_overtake_controller.py lines 864-911). -/
def checkOvertakeCompletion (now : ℚ) (s : CtrlState) : CtrlState :=
  if s.lane_change_in_progress = false then s
  else
    let start_count := s.overtake_start_count.getD s.overtakeSuccessCount
    if start_count < s.overtakeSuccessCount then
      { s with isOvertaking := false, lane_change_in_progress := false,
               overtakingCompleted := true, original_lane_clear := false,
               lastOvertakeTime := now,
               last_overtake_result := OvertakeResult.success,
               completion_timer := now, overtake_start_count := none }
    else if 15000 < now - s.lastLaneChangeCommandTime then
      { s with lane_change_in_progress := false, isOvertaking := false,
               lastOvertakeTime := now,
               last_overtake_result := OvertakeResult.failed,
               completion_timer := now }
    else s

/-- Return direction chosen by check_smart_return_conditions from the sign
of the net-lane-change counter (return_strategy.py lines 319-325); the
surrounding gates guarantee net_lane_changes is nonzero when this point is
reached. -/
def smartReturnDirection (ctrl : CtrlState) : Direction :=
  if 0 < ctrl.net_lane_changes then Direction.RIGHT else Direction.LEFT

/-- Return direction computed by perform_smart_return from the remembered
original lane (auto_overtake_controller.py lines 714-726); none when the
vehicle is already in the original lane. -/
def performReturnDirection (cfg : Config) (ctrl : CtrlState) :
    Option Direction :=
  if cfg.current_lane_number < ctrl.original_lane_number then
    some Direction.RIGHT
  else if ctrl.original_lane_number < cfg.current_lane_number then
    some Direction.LEFT
  else none

/-- Number of lane changes still needed to return, the |current_net| of
perform_smart_return (auto_overtake_controller.py lines 750-751) and the
|remaining_changes| of check_return_completion (lines 799-804). -/
def requiredReturnChanges (cfg : Config) (ctrl : CtrlState) : ℤ :=
  |ctrl.original_lane_number - cfg.current_lane_number|

/-- Geometric availability of the return direction,
is_return_direction_available (return_strategy.py lines 228-233). -/
def isReturnDirectionAvailable (current_lane total_lanes : ℤ) :
    Direction → Bool
  | Direction.RIGHT => decide (current_lane < total_lanes)
  | Direction.LEFT => decide (1 < current_lane)

/-- Default configuration values of config.py _init_default_config. -/
def defaultConfig : Config :=
  { road_type := RoadType.highway
    lane_count := 3
    current_lane_number := 2
    lane_count_mode := LaneCountMode.auto
    manual_lane_count := 3
    shouldReturnToLane := true
    HIGHWAY_LEAD_MIN_SPEED := 35
    NORMAL_LEAD_MIN_SPEED := 20
    HIGHWAY_MIN_SPEED := 75
    NORMAL_ROAD_MIN_SPEED := 40
    CRUISE_SPEED_RATIO_THRESHOLD := (0.8 : ℚ)
    FOLLOW_TIME_GAP_THRESHOLD := 2
    MAX_FOLLOW_TIME := 600000
    LEAD_RELATIVE_SPEED_THRESHOLD := -15
    EARLY_OVERTAKE_SPEED_RATIO_MAX := (0.6 : ℚ)
    EARLY_OVERTAKE_MIN_LEAD_SPEED := 50
    EARLY_OVERTAKE_MIN_DISTANCE := 30
    EARLY_OVERTAKE_MAX_DISTANCE := 100
    EARLY_OVERTAKE_MIN_SPEED_DIFF := 20
    MIN_LANE_WIDTH := (2.3 : ℚ)
    SAFE_LANE_WIDTH := (2.8 : ℚ)
    SIDE_LEAD_DISTANCE_MIN := 25
    SIDE_RELATIVE_SPEED_THRESHOLD := 25
    OVERTAKE_COOLDOWN_BASE := 8000
    OVERTAKE_COOLDOWN_FAILED := 3000
    OVERTAKE_COOLDOWN_SUCCESS := 15000
    OVERTAKE_COOLDOWN_CONDITION := 5000
    weights :=
      { lead_relative_speed := 2
        side_lead_distance := (1.5 : ℚ)
        side_relative_speed := (1.8 : ℚ)
        lane_width := (1.2 : ℚ)
        blindspot := 3
        curvature := (1.5 : ℚ)
        min_speed_advantage := 5 }
    PENALTY_THRESHOLD := 60
    MIN_SPEED_ADVANTAGE := 5 }

/-- Default vehicle_data values of status_management.py
_init_vehicle_data (restricted to the modelled fields). -/
def defaultVehicleData : VehicleData :=
  { v_ego_kph := 0
    v_cruise_kph := 0
    lead_speed := 0
    lead_distance := 0
    lead_relative_speed := 0
    left_lead_speed := 0
    left_lead_distance := 0
    left_lead_relative_speed := 0
    right_lead_speed := 0
    right_lead_distance := 0
    right_lead_relative_speed := 0
    l_lane_width := (3.2 : ℚ)
    r_lane_width := (3.2 : ℚ)
    l_edge_dist := (1.5 : ℚ)
    r_edge_dist := (1.5 : ℚ)
    left_blindspot := false
    right_blindspot := false
    l_front_blind := false
    r_front_blind := false
    IsOnroad := false
    engaged := false
    system_auto_control := 0
    blinker := Blinker.off
    steering_angle := 0
    lat_a := 0 }

/-- Default control_state values of status_management.py
_init_control_state (restricted to the modelled fields). -/
def defaultCtrlState : CtrlState :=
  { isOvertaking := false
    overtakingCompleted := false
    overtakeSuccessCount := 0
    lastOvertakeDirection := none
    lastOvertakeTime := 0
    lane_change_in_progress := false
    lastLaneChangeCommandTime := 0
    net_lane_changes := 0
    max_return_attempts := 2
    return_attempts := 0
    return_conditions_met := false
    return_timer_start := 0
    original_lane_clear := false
    follow_start_time := none
    is_following_slow_vehicle := false
    max_follow_time_reached := false
    last_overtake_result := OvertakeResult.idle
    dynamic_cooldown := 8000
    consecutive_failures := 0
    last_auto_overtake_time := 0
    return_timeout := 40000
    is_auto_overtake := false
    op_control_cooldown := 0
    last_op_control_end_time := 0
    target_vehicle_tracker := none
    overtake_complete_timer := 0
    overtake_complete_duration := 5000
    last_lane_number := 0
    completion_timer := 0
    condition_stability_timer := 0
    condition_stable_duration := 1500
    condition_met_count := 0
    condition_met_threshold := 3
    last_condition_check_time := 0
    stable_condition_flags := none
    quick_trigger_enabled := false
    quick_trigger_start := 0
    original_lane_number := 0
    overtake_start_count := none }

/-- Example configuration: a four-lane highway with ego in lane 2. -/
def cfgExec : Config :=
  { defaultConfig with current_lane_number := 2, lane_count := 4 }

/-- Example snapshot on which the decision logic executes a LEFT overtake:
slow leader, clear left lane, blocked right lane. -/
def vdExec : VehicleData :=
  { defaultVehicleData with
      IsOnroad := true, engaged := true,
      v_ego_kph := 100, v_cruise_kph := 110,
      lead_speed := 60, lead_distance := 50, lead_relative_speed := -40,
      l_lane_width := (3.5 : ℚ), r_lane_width := (3.5 : ℚ),
      right_lead_distance := 20, right_lead_speed := 40,
      right_lead_relative_speed := -30 }

/-- Example snapshot satisfying every early/long-range trigger condition
(leader 50 km/h, ego 100 km/h, distance 60 on a highway). -/
def vdEarlyFires : VehicleData :=
  { defaultVehicleData with
      IsOnroad := true, engaged := true,
      v_ego_kph := 100, v_cruise_kph := 110,
      lead_speed := 50, lead_distance := 60, lead_relative_speed := -50 }

/-- Example snapshot of the claimed Scenario A: leader at 40 km/h, ego at
100 km/h, lead distance 60, on a highway. -/
def vdScenarioA : VehicleData :=
  { defaultVehicleData with
      IsOnroad := true, engaged := true,
      v_ego_kph := 100, v_cruise_kph := 110,
      lead_speed := 40, lead_distance := 60, lead_relative_speed := -60 }

/-- Example snapshot where no trigger condition holds (leader/ego speed
ratio 0.7 is above the early ceiling of 0.6). -/
def vdNoEarly : VehicleData :=
  { defaultVehicleData with
      IsOnroad := true, engaged := true,
      v_ego_kph := 100, v_cruise_kph := 110,
      lead_speed := 70, lead_distance := 60, lead_relative_speed := -30 }

/-- Control state one second after a successful overtake: the dynamic
cooldown (12000 ms on a highway after success) has not elapsed. -/
def ctrlCoolingDown : CtrlState :=
  { defaultCtrlState with
      lastOvertakeTime := 999000,
      last_overtake_result := OvertakeResult.success }

/-- Verification state with confirmed lane 2 and fully depleted
confidence. -/
def verDepleted : VerState :=
  { initVerState with last_confirmed_lane := 2, confidence_score := 0 }

/-- Configuration whose geometry-derived current lane has just moved to
3. -/
def cfgLane3 : Config := { defaultConfig with current_lane_number := 3 }

/-- Verification state with confirmed lane 2 and full confidence. -/
def verConfirmed2 : VerState := { initVerState with last_confirmed_lane := 2 }

/-- Configuration with current lane 1 (one lane left of confirmed 2). -/
def cfgLane1 : Config := { defaultConfig with current_lane_number := 1 }

/-- Snapshot with strong corroborating lane-change signals to the left. -/
def vdStrongLeft : VehicleData :=
  { defaultVehicleData with
      blinker := Blinker.left, steering_angle := 10, lat_a := (0.3 : ℚ) }

/-- Verification state with confirmed lane 1, two lanes away from
cfgLane3. -/
def verConfirmed1 : VerState := { initVerState with last_confirmed_lane := 1 }

/-- Manual-mode three-lane configuration with current lane 2, for the
geometry-update counterexample. -/
def cfgManual3 : Config :=
  { defaultConfig with
      lane_count_mode := LaneCountMode.manual,
      manual_lane_count := 3, current_lane_number := 2 }

/-- Snapshot whose road geometry places ego in lane 3 of 3 (left edge
4.8, right edge 1.6). -/
def vdGeomLane3 : VehicleData :=
  { defaultVehicleData with
      l_edge_dist := (4.8 : ℚ), r_edge_dist := (1.6 : ℚ) }

/-- Smoothing history that has already seen lane 3 twice. -/
def geomTwoThrees : GeomState :=
  { lane_number_history := [3, 3], lane_count_history := [] }

/-- Control state of an in-progress overtake requested at time 0 whose
success counter has not advanced. -/
def ctrlInProgress : CtrlState :=
  { defaultCtrlState with
      lane_change_in_progress := true, isOvertaking := true,
      overtakeSuccessCount := 5, overtake_start_count := some 5,
      lastLaneChangeCommandTime := 0 }

/-- Snapshot with an empty right lane while cruising below the current
leader-free pace: cruise 110 km/h, leader 90 km/h. -/
def vdEmptyRight : VehicleData :=
  { defaultVehicleData with
      v_ego_kph := 100, v_cruise_kph := 110, lead_speed := 90 }

/-- Configuration of the claimed Scenario C: current lane 1. -/
def cfgReturn : Config := { defaultConfig with current_lane_number := 1 }

/-- Control state of the claimed Scenario C: net-lane-changes +2,
original lane 3. -/
def ctrlReturn : CtrlState :=
  { defaultCtrlState with net_lane_changes := 2, original_lane_number := 3 }

/-! Helper lemmas about field preservation of the embedded functions. -/

/-- Blinker-prediction update never changes the confirmed lane. -/
theorem verifyBlinker_confirmed (now : ℚ) (vd : VehicleData) (cfg : Config)
    (ver : VerState) :
    (verifyBlinkerBasedLaneChange now vd cfg ver).last_confirmed_lane =
      ver.last_confirmed_lane := by
  simp only [verifyBlinkerBasedLaneChange]
  split <;> first
  | rfl
  | (split <;> rfl)

/-- Blinker-prediction update never changes the confidence score. -/
theorem verifyBlinker_confidence (now : ℚ) (vd : VehicleData) (cfg : Config)
    (ver : VerState) :
    (verifyBlinkerBasedLaneChange now vd cfg ver).confidence_score =
      ver.confidence_score := by
  simp only [verifyBlinkerBasedLaneChange]
  split <;> first
  | rfl
  | (split <;> rfl)

/-- The Boolean verdict of the stateful minimum-leader-speed check equals the
pure predicate. -/
theorem checkMinSpeed_fst (cfg : Config) (vd : VehicleData) (s : CtrlState) :
    (checkLeadVehicleMinSpeed cfg vd s).1 = checkLeadVehicleMinSpeedB cfg vd := by
  unfold checkLeadVehicleMinSpeed
  split <;> simp_all

/-- A passing minimum-leader-speed check leaves the control state unchanged. -/
theorem checkMinSpeed_snd_of_true (cfg : Config) (vd : VehicleData)
    (s : CtrlState) (h : checkLeadVehicleMinSpeedB cfg vd = true) :
    (checkLeadVehicleMinSpeed cfg vd s).2 = s := by
  unfold checkLeadVehicleMinSpeed
  simp [h]

/-- The Boolean verdict of the stateful early-overtake check equals the pure
predicate. -/
theorem checkEarly_fst (cfg : Config) (vd : VehicleData) (s : CtrlState) :
    (checkEarlyOvertakeConditions cfg vd s).1 =
      checkEarlyOvertakeConditionsB cfg vd := by
  unfold checkEarlyOvertakeConditions checkEarlyOvertakeConditionsB
  by_cases h1 : cfg.road_type ≠ RoadType.highway
  · simp [h1]
  · by_cases h2 : vd.lead_distance ≤ 0 ∨ vd.v_ego_kph ≤ 0 ∨
        vd.lead_speed ≤ 0 ∨ vd.v_cruise_kph ≤ 0
    · simp [h1, h2]
    · by_cases h3 : checkLeadVehicleMinSpeedB cfg vd
      · simp [h1, h2, h3, checkMinSpeed_fst, checkEarlyOvertakeConditionsB]
      · simp [h1, h2, h3, checkMinSpeed_fst]

/-- When the leader meets its minimum-speed floor, the early-overtake check
leaves the control state unchanged. -/
theorem checkEarly_snd_of_minspeed (cfg : Config) (vd : VehicleData)
    (s : CtrlState) (h : checkLeadVehicleMinSpeedB cfg vd = true) :
    (checkEarlyOvertakeConditions cfg vd s).2 = s := by
  unfold checkEarlyOvertakeConditions
  by_cases h1 : cfg.road_type ≠ RoadType.highway
  · simp [h1]
  · by_cases h2 : vd.lead_distance ≤ 0 ∨ vd.v_ego_kph ≤ 0 ∨
        vd.lead_speed ≤ 0 ∨ vd.v_cruise_kph ≤ 0
    · simp [h1, h2]
    · simp [h1, h2, checkMinSpeed_fst, h, checkMinSpeed_snd_of_true]

/-- The OP-control cooldown check only ever writes op_control_cooldown. -/
theorem opCooldown_fields (now : ℚ) (s : CtrlState) :
    (checkOpControlCooldown now s).2.lastOvertakeTime = s.lastOvertakeTime ∧
    (checkOpControlCooldown now s).2.quick_trigger_enabled =
      s.quick_trigger_enabled ∧
    (checkOpControlCooldown now s).2.last_overtake_result =
      s.last_overtake_result ∧
    (checkOpControlCooldown now s).2.consecutive_failures =
      s.consecutive_failures := by
  unfold checkOpControlCooldown
  split
  · split <;> simp
  · simp

/-- The dynamic-cooldown value depends only on last_overtake_result and
consecutive_failures. -/
theorem calcCooldown_fst_congr (cfg : Config) (s t : CtrlState)
    (h1 : s.last_overtake_result = t.last_overtake_result)
    (h2 : s.consecutive_failures = t.consecutive_failures) :
    (calculateDynamicCooldown cfg s).1 = (calculateDynamicCooldown cfg t).1 := by
  unfold calculateDynamicCooldown
  cases ht : t.last_overtake_result <;>
    simp [h1.trans ht, ht, h2]

/-- The dynamic-cooldown computation only writes consecutive_failures and
dynamic_cooldown. -/
theorem calcCooldown_fields (cfg : Config) (s : CtrlState) :
    (calculateDynamicCooldown cfg s).2.lastOvertakeTime = s.lastOvertakeTime ∧
    (calculateDynamicCooldown cfg s).2.quick_trigger_enabled =
      s.quick_trigger_enabled := by
  unfold calculateDynamicCooldown
  cases ht : s.last_overtake_result <;> simp [ht]

/-- The pass verdict of the multi-source verification is exactly the
0.60 threshold test on its returned score. -/
theorem verify_fst_eq (now : ℚ) (lane_change : ℤ) (vd : VehicleData)
    (ver : VerState) :
    (verifyLaneChangeMultisource now lane_change vd ver).1 =
      decide ((0.6 : ℚ) ≤
        (verifyLaneChangeMultisource now lane_change vd ver).2 / 100) := rfl

/-- C5: for every lane-index delta with |Δlane| > 1 the change is treated as
sensor error: current_lane_number is rolled back to the prior confirmed
lane, the net-lane-change counter and the confirmed lane are unchanged, and
the confidence score decreases by exactly 20, clamped at 0. -/
theorem C5_sensor_error_rollback :
    ∀ (now : ℚ) (vd : VehicleData) (cfg : Config) (ver : VerState)
      (ctrl : CtrlState),
      ver.last_confirmed_lane ≠ 0 →
      1 < (cfg.current_lane_number - ver.last_confirmed_lane).natAbs →
      (updateLaneBasedNetChanges now vd cfg ver ctrl).1.current_lane_number =
        ver.last_confirmed_lane ∧
      (updateLaneBasedNetChanges now vd cfg ver ctrl).2.1.last_confirmed_lane =
        ver.last_confirmed_lane ∧
      (updateLaneBasedNetChanges now vd cfg ver ctrl).2.2.net_lane_changes =
        ctrl.net_lane_changes ∧
      (updateLaneBasedNetChanges now vd cfg ver ctrl).2.1.confidence_score =
        max 0 (ver.confidence_score - 20) := by
  intro now vd cfg ver ctrl h0 h1
  have hne : ¬ (cfg.current_lane_number - ver.last_confirmed_lane).natAbs = 1 := by
    omega
  simp only [updateLaneBasedNetChanges, if_neg h0, if_neg hne, if_pos h1]
  simp [verifyBlinker_confirmed, verifyBlinker_confidence]

/-- C4 (amended): for |Δlane| = 1, a verification score reaching the 0.60
threshold advances the confirmed lane and updates the net-lane-change
counter (memory-anchored when original-lane memory is active, otherwise
incremental); a score below the threshold leaves the confirmed lane
unchanged, rolls current_lane_number back, and decreases the confidence
score by 10 clamped at 0 (a strict decrease whenever it was positive). -/
theorem C4_amended_single_lane_step :
    ∀ (now : ℚ) (vd : VehicleData) (cfg : Config) (ver : VerState)
      (ctrl : CtrlState),
      ver.last_confirmed_lane ≠ 0 →
      (cfg.current_lane_number - ver.last_confirmed_lane).natAbs = 1 →
      (((0.6 : ℚ) ≤ (verifyLaneChangeMultisource now
          (cfg.current_lane_number - ver.last_confirmed_lane) vd ver).2 / 100 →
        (updateLaneBasedNetChanges now vd cfg ver ctrl).2.1.last_confirmed_lane =
          cfg.current_lane_number ∧
        (updateLaneBasedNetChanges now vd cfg ver ctrl).2.2.net_lane_changes =
          (if 0 < ctrl.original_lane_number then
            ctrl.original_lane_number - cfg.current_lane_number
          else if cfg.current_lane_number - ver.last_confirmed_lane = -1 then
            ctrl.net_lane_changes + 1
          else ctrl.net_lane_changes - 1)) ∧
      ((verifyLaneChangeMultisource now
          (cfg.current_lane_number - ver.last_confirmed_lane) vd ver).2 / 100 <
          (0.6 : ℚ) →
        (updateLaneBasedNetChanges now vd cfg ver ctrl).2.1.last_confirmed_lane =
          ver.last_confirmed_lane ∧
        (updateLaneBasedNetChanges now vd cfg ver ctrl).1.current_lane_number =
          ver.last_confirmed_lane ∧
        (updateLaneBasedNetChanges now vd cfg ver ctrl).2.1.confidence_score =
          max 0 (ver.confidence_score - 10) ∧
        (0 < ver.confidence_score →
          (updateLaneBasedNetChanges now vd cfg ver ctrl).2.1.confidence_score <
            ver.confidence_score))) := by
  intro now vd cfg ver ctrl h0 h1
  constructor
  · intro hpass
    have hb : (verifyLaneChangeMultisource now
        (cfg.current_lane_number - ver.last_confirmed_lane) vd ver).1 = true := by
      rw [verify_fst_eq]; exact decide_eq_true hpass
    simp only [updateLaneBasedNetChanges, if_neg h0, if_pos h1]
    rw [hb]
    by_cases hlc : cfg.current_lane_number - ver.last_confirmed_lane = -1 <;>
      simp [hlc, verifyBlinker_confirmed]
  · intro hfail
    have hb : (verifyLaneChangeMultisource now
        (cfg.current_lane_number - ver.last_confirmed_lane) vd ver).1 = false := by
      rw [verify_fst_eq]
      exact decide_eq_false (not_le.mpr hfail)
    simp only [updateLaneBasedNetChanges, if_neg h0, if_pos h1]
    rw [hb]
    refine ⟨?_, ?_, ?_, ?_⟩
    · simp [verifyBlinker_confirmed]
    · simp
    · simp [verifyBlinker_confidence]
    · intro hpos
      have hlt : max 0 (ver.confidence_score - 10) < ver.confidence_score :=
        max_lt hpos (by linarith)
      simp [verifyBlinker_confidence]
      simpa using hlt

/-- C6: the verification confidence score starts at 100 and stays within
[0, 100] across the net-lane-change update (pass bonus, fail penalty and
forced-rollback penalty included) and across the reset operation. -/
theorem C6_confidence_invariant :
    initVerState.confidence_score = 100 ∧
    (∀ (ver : VerState) (geom : GeomState),
      (resetVerificationSystem ver geom).1.confidence_score = 100) ∧
    (∀ (now : ℚ) (vd : VehicleData) (cfg : Config) (ver : VerState)
      (ctrl : CtrlState),
      0 ≤ ver.confidence_score → ver.confidence_score ≤ 100 →
      0 ≤ (updateLaneBasedNetChanges now vd cfg ver ctrl).2.1.confidence_score ∧
      (updateLaneBasedNetChanges now vd cfg ver ctrl).2.1.confidence_score ≤
        100) := by
  refine ⟨rfl, fun ver geom => rfl, ?_⟩
  intro now vd cfg ver ctrl hlo hhi
  simp only [updateLaneBasedNetChanges]
  split
  · simpa using ⟨hlo, hhi⟩
  · split
    · split
      · simp only [verifyBlinker_confidence]
        constructor
        · exact le_min (by norm_num) (by linarith)
        · exact min_le_left _ _
      · simp only [verifyBlinker_confidence]
        constructor
        · exact le_max_left _ _
        · exact max_le (by norm_num) (by linarith)
    · split
      · simp only [verifyBlinker_confidence]
        constructor
        · exact le_max_left _ _
        · exact max_le (by norm_num) (by linarith)
      · simp only [verifyBlinker_confidence]
        exact ⟨hlo, hhi⟩

/-- C7 (amended): after every update_lane_based_net_changes call,
current_lane_number agrees with the verification system's confirmed lane —
a change is either confirmed or rolled back within the call.  (The
geometry pass update_lane_number may still overwrite current_lane_number
with an unconfirmed estimate afterwards, until the next verification
call.) -/
theorem C7_amended_verified_lane_consistency :
    ∀ (now : ℚ) (vd : VehicleData) (cfg : Config) (ver : VerState)
      (ctrl : CtrlState),
      (updateLaneBasedNetChanges now vd cfg ver ctrl).1.current_lane_number =
      (updateLaneBasedNetChanges now vd cfg ver ctrl).2.1.last_confirmed_lane := by
  intro now vd cfg ver ctrl
  simp only [updateLaneBasedNetChanges]
  split
  · simp
  · split
    · split
      · simp [verifyBlinker_confirmed]
      · simp [verifyBlinker_confirmed]
    · split
      · simp [verifyBlinker_confirmed]
      · rename_i hne0 hnot1 hnotgt
        have hcl : cfg.current_lane_number = ver.last_confirmed_lane := by omega
        simp [verifyBlinker_confirmed, hcl]

/-- C4 (counterexample): at confidence 0, a failed verification of a
|Δlane| = 1 change leaves the confidence score at 0, so the score does not
strictly decrease as the claim states. -/
theorem C4_counterexample :
    (cfgLane3.current_lane_number - verDepleted.last_confirmed_lane).natAbs = 1 ∧
    (verifyLaneChangeMultisource 0
      (cfgLane3.current_lane_number - verDepleted.last_confirmed_lane)
      defaultVehicleData verDepleted).2 / 100 < (0.6 : ℚ) ∧
    verDepleted.confidence_score = 0 ∧
    ¬ ((updateLaneBasedNetChanges 0 defaultVehicleData cfgLane3 verDepleted
        defaultCtrlState).2.1.confidence_score <
      verDepleted.confidence_score) := by
  simp +decide [verifyLaneChangeMultisource, updateLaneBasedNetChanges,
    verifyBlinkerBasedLaneChange, cfgLane3, verDepleted, defaultVehicleData,
    defaultCtrlState, defaultConfig, initVerState, pushBounded10]
  norm_num

/-- C4 (witness): a concrete |Δlane| = 1 change with strong corroborating
signals passes verification and advances the confirmed lane. -/
theorem C4_witness :
    (updateLaneBasedNetChanges 0 vdStrongLeft cfgLane1 verConfirmed2
      defaultCtrlState).2.1.last_confirmed_lane =
      cfgLane1.current_lane_number :=
  ((C4_amended_single_lane_step 0 vdStrongLeft cfgLane1 verConfirmed2
    defaultCtrlState (by decide) (by decide)).1
    (by
      simp +decide [verifyLaneChangeMultisource, vdStrongLeft, verConfirmed2,
        initVerState, defaultVehicleData, cfgLane1, defaultConfig]
      norm_num [abs_of_nonneg])).1

/-- C5 (witness): a concrete jump from confirmed lane 1 to lane 3 is
force-rolled back with a confidence penalty of 20. -/
theorem C5_witness :
    (updateLaneBasedNetChanges 0 defaultVehicleData cfgLane3 verConfirmed1
      defaultCtrlState).2.1.confidence_score =
      max 0 (verConfirmed1.confidence_score - 20) :=
  (C5_sensor_error_rollback 0 defaultVehicleData cfgLane3 verConfirmed1
    defaultCtrlState (by decide) (by decide)).2.2.2

/-- C6 (witness): the bounds hold on a concrete update from the initial
confidence of 100. -/
theorem C6_witness :
    0 ≤ (updateLaneBasedNetChanges 0 defaultVehicleData cfgLane3 verConfirmed2
      defaultCtrlState).2.1.confidence_score ∧
    (updateLaneBasedNetChanges 0 defaultVehicleData cfgLane3 verConfirmed2
      defaultCtrlState).2.1.confidence_score ≤ 100 :=
  C6_confidence_invariant.2.2 0 defaultVehicleData cfgLane3 verConfirmed2
    defaultCtrlState (by norm_num [verConfirmed2, initVerState])
    (by norm_num [verConfirmed2, initVerState])

/-- C7 (counterexample): update_lane_number writes the geometry-derived
lane 3 directly into current_lane_number while the verification system's
confirmed lane is still 2 — downstream readers of the configuration in the
same tick observe an unconfirmed estimate. -/
theorem C7_counterexample :
    verConfirmed2.last_confirmed_lane = 2 ∧
    (updateLaneNumber vdGeomLane3 cfgManual3
      geomTwoThrees).1.current_lane_number = 3 ∧
    (updateLaneNumber vdGeomLane3 cfgManual3
      geomTwoThrees).1.current_lane_number ≠
      verConfirmed2.last_confirmed_lane := by
  norm_num [updateLaneNumber, calculateLaneCount, calculateAutoLaneCount,
    pushBounded10, roundHalfEven, mostCommon, cfgManual3, vdGeomLane3,
    geomTwoThrees, defaultConfig, defaultVehicleData, verConfirmed2,
    initVerState]

/-- C8 (amended): an in-progress overtake with no completion signal more
than 15000 ms after the lane-change command transitions to the timed-out
state in check_overtake_completion — the progress flags clear and
last_overtake_result becomes 'failed' — while consecutive_failures is
unchanged there and increments at the next dynamic-cooldown
computation. -/
theorem C8_amended_timeout_transition :
    ∀ (now : ℚ) (cfg : Config) (s : CtrlState),
      s.lane_change_in_progress = true →
      s.overtakeSuccessCount ≤
        s.overtake_start_count.getD s.overtakeSuccessCount →
      15000 < now - s.lastLaneChangeCommandTime →
      (checkOvertakeCompletion now s).lane_change_in_progress = false ∧
      (checkOvertakeCompletion now s).isOvertaking = false ∧
      (checkOvertakeCompletion now s).last_overtake_result =
        OvertakeResult.failed ∧
      (checkOvertakeCompletion now s).consecutive_failures =
        s.consecutive_failures ∧
      (calculateDynamicCooldown cfg
        (checkOvertakeCompletion now s)).2.consecutive_failures =
        s.consecutive_failures + 1 := by
  intro now cfg s h1 h2 h3
  have hns : ¬ (s.overtake_start_count.getD s.overtakeSuccessCount <
      s.overtakeSuccessCount) := by omega
  simp only [checkOvertakeCompletion, h1, Bool.true_eq_false, if_false,
    if_neg hns, if_pos h3]
  refine ⟨by simp, by simp, by simp, by simp, ?_⟩
  simp [calculateDynamicCooldown]

/-- C8 (counterexample): in the concrete timed-out check the failure is
recorded but consecutive_failures is not incremented within that same
check, contrary to the claim's wording. -/
theorem C8_counterexample :
    (checkOvertakeCompletion 20000 ctrlInProgress).last_overtake_result =
      OvertakeResult.failed ∧
    (checkOvertakeCompletion 20000 ctrlInProgress).lane_change_in_progress =
      false ∧
    (checkOvertakeCompletion 20000 ctrlInProgress).isOvertaking = false ∧
    ctrlInProgress.consecutive_failures = 0 ∧
    ¬ ((checkOvertakeCompletion 20000 ctrlInProgress).consecutive_failures =
      ctrlInProgress.consecutive_failures + 1) := by
  norm_num [checkOvertakeCompletion, ctrlInProgress, defaultCtrlState]

/-- C8 (witness): the amended timeout transition on the concrete
in-progress state at time 20000. -/
theorem C8_witness :
    (checkOvertakeCompletion 20000 ctrlInProgress).last_overtake_result =
      OvertakeResult.failed ∧
    (calculateDynamicCooldown defaultConfig
      (checkOvertakeCompletion 20000 ctrlInProgress)).2.consecutive_failures =
      ctrlInProgress.consecutive_failures + 1 := by
  have h := C8_amended_timeout_transition 20000 defaultConfig ctrlInProgress
    (by decide) (by decide) (by norm_num [ctrlInProgress, defaultCtrlState])
  exact ⟨h.2.2.1, h.2.2.2.2⟩

/-- C10: the return direction is RIGHT when the net-lane-change counter is
positive and LEFT when it is negative; in the concrete Scenario C
(net = +2, original lane 3, current lane 1) the memory-anchored return
direction is RIGHT with 2 required lane changes. -/
theorem C10_return_direction :
    (∀ ctrl : CtrlState, 0 < ctrl.net_lane_changes →
      smartReturnDirection ctrl = Direction.RIGHT) ∧
    (∀ ctrl : CtrlState, ctrl.net_lane_changes < 0 →
      smartReturnDirection ctrl = Direction.LEFT) ∧
    ctrlReturn.net_lane_changes = 2 ∧
    ctrlReturn.original_lane_number = 3 ∧
    cfgReturn.current_lane_number = 1 ∧
    performReturnDirection cfgReturn ctrlReturn = some Direction.RIGHT ∧
    requiredReturnChanges cfgReturn ctrlReturn = 2 ∧
    smartReturnDirection ctrlReturn = Direction.RIGHT := by
  refine ⟨?_, ?_, by decide, by decide, by decide, by decide, by decide,
    by decide⟩
  · intro ctrl h
    simp [smartReturnDirection, h]
  · intro ctrl h
    have h2 : ¬ 0 < ctrl.net_lane_changes := by omega
    simp [smartReturnDirection, h2]

/-- C10 (witness): the sign rule applied to the Scenario C control state. -/
theorem C10_witness : smartReturnDirection ctrlReturn = Direction.RIGHT :=
  C10_return_direction.1 ctrlReturn (by decide)

/-- C2 (counterexample): with the early/long-range conditions satisfied,
check_overtake_conditions returns True although the dynamic cooldown since
lastOvertakeTime has not elapsed and quick-trigger is inactive — the early
trigger bypasses the cooldown gate. -/
theorem C2_counterexample :
    ctrlCoolingDown.quick_trigger_enabled = false ∧
    1000000 - ctrlCoolingDown.lastOvertakeTime <
      (calculateDynamicCooldown defaultConfig ctrlCoolingDown).1 ∧
    (checkOvertakeConditions defaultConfig vdEarlyFires 1000000
      ctrlCoolingDown).1 = true := by
  refine ⟨rfl, ?_, ?_⟩
  · norm_num [calculateDynamicCooldown, ctrlCoolingDown, defaultCtrlState,
      defaultConfig]
  · norm_num [checkOvertakeConditions, checkOvertakeOnroadGates,
      checkOpControlCooldown, checkEarlyOvertakeConditions,
      checkEarlyOvertakeConditionsB, checkLeadVehicleMinSpeed,
      checkLeadVehicleMinSpeedB, ctrlCoolingDown, defaultCtrlState,
      defaultConfig, vdEarlyFires, defaultVehicleData]

/-- Cooldown phase blocks when the dynamic cooldown has not elapsed and
quick-trigger is off. -/
theorem cooldownPhase_blocked (cfg : Config) (vd : VehicleData) (now : ℚ)
    (s3 : CtrlState)
    (h1 : now - s3.lastOvertakeTime < (calculateDynamicCooldown cfg s3).1)
    (h2 : s3.quick_trigger_enabled = false) :
    (checkOvertakeCooldownPhase cfg vd now s3).1 = false := by
  have hcond : now - (calculateDynamicCooldown cfg s3).2.lastOvertakeTime <
      (calculateDynamicCooldown cfg s3).1 ∧
      (calculateDynamicCooldown cfg s3).2.quick_trigger_enabled = false := by
    constructor
    · rw [(calcCooldown_fields cfg s3).1]; exact h1
    · rw [(calcCooldown_fields cfg s3).2]; exact h2
  simp only [checkOvertakeCooldownPhase, if_pos hcond]

/-- Lead gates end in a blocked cooldown phase under the same
hypotheses. -/
theorem leadGates_blocked (cfg : Config) (vd : VehicleData) (now : ℚ)
    (s2 : CtrlState)
    (h1 : now - s2.lastOvertakeTime < (calculateDynamicCooldown cfg s2).1)
    (h2 : s2.quick_trigger_enabled = false) :
    (checkOvertakeLeadGates cfg vd now s2).1 = false := by
  simp only [checkOvertakeLeadGates]
  split
  · rfl
  · rename_i hmin
    have hmB : checkLeadVehicleMinSpeedB cfg vd = true := by
      rw [checkMinSpeed_fst] at hmin
      simpa using hmin
    have hs3 : (checkLeadVehicleMinSpeed cfg vd s2).2 = s2 :=
      checkMinSpeed_snd_of_true cfg vd s2 hmB
    repeat' split
    all_goals first
      | rfl
      | (rw [hs3]; exact cooldownPhase_blocked cfg vd now s2 h1 h2)

/-- Onroad gates return false under an unelapsed cooldown when the early
trigger condition does not hold. -/
theorem onroadGates_blocked (cfg : Config) (vd : VehicleData) (now : ℚ)
    (s1 : CtrlState)
    (hE : checkEarlyOvertakeConditionsB cfg vd = false)
    (h1 : now - s1.lastOvertakeTime < (calculateDynamicCooldown cfg s1).1)
    (h2 : s1.quick_trigger_enabled = false) :
    (checkOvertakeOnroadGates cfg vd now s1).1 = false := by
  simp only [checkOvertakeOnroadGates]
  split
  · rfl
  · split
    · rfl
    · split
      · rename_i hearly
        rw [checkEarly_fst, hE] at hearly
        exact absurd hearly (by simp)
      · by_cases hm : checkLeadVehicleMinSpeedB cfg vd = true
        · rw [checkEarly_snd_of_minspeed cfg vd s1 hm]
          exact leadGates_blocked cfg vd now s1 h1 h2
        · simp only [checkOvertakeLeadGates]
          split
          · rfl
          · rename_i hmin
            rw [checkMinSpeed_fst] at hmin
            simp only [Bool.not_eq_false] at hmin
            exact absurd hmin hm

/-- C2 (amended): whenever the early/long-range trigger condition does not
hold, an unelapsed dynamic cooldown with quick-trigger inactive forces
check_overtake_conditions to return False; the early trigger is the one
path that bypasses this cooldown gate. -/
theorem C2_amended_cooldown_gate :
    ∀ (cfg : Config) (vd : VehicleData) (now : ℚ) (s : CtrlState),
      checkEarlyOvertakeConditionsB cfg vd = false →
      now - s.lastOvertakeTime < (calculateDynamicCooldown cfg s).1 →
      s.quick_trigger_enabled = false →
      (checkOvertakeConditions cfg vd now s).1 = false := by
  intro cfg vd now s hE hC hQ
  obtain ⟨hT1, hQ1, hR1, hF1⟩ := opCooldown_fields now s
  simp only [checkOvertakeConditions]
  split
  · rfl
  · split
    · rfl
    · apply onroadGates_blocked cfg vd now _ hE
      · rw [hT1]
        calc now - s.lastOvertakeTime
            < (calculateDynamicCooldown cfg s).1 := hC
          _ = (calculateDynamicCooldown cfg
              (checkOpControlCooldown now s).2).1 :=
            calcCooldown_fst_congr cfg s _ hR1.symm hF1.symm
      · rw [hQ1]; exact hQ

/-- C2 (witness): the amended cooldown gate on a concrete snapshot with no
early trigger, one second after a successful overtake. -/
theorem C2_witness :
    (checkOvertakeConditions defaultConfig vdNoEarly 1000000
      ctrlCoolingDown).1 = false :=
  C2_amended_cooldown_gate defaultConfig vdNoEarly 1000000 ctrlCoolingDown
    (by norm_num [checkEarlyOvertakeConditionsB, checkLeadVehicleMinSpeedB,
      vdNoEarly, defaultVehicleData, defaultConfig])
    (by norm_num [calculateDynamicCooldown, ctrlCoolingDown,
      defaultCtrlState, defaultConfig])
    rfl

/-- C3 (counterexample): in the claimed Scenario A — leader 40 km/h, ego
100 km/h, distance 60 on a highway, ratio 0.4 ≤ 0.6 and distance within
[30,100] — the early trigger does not fire, because the leader speed is
below the 50 km/h anti-congestion floor. -/
theorem C3_counterexample :
    vdScenarioA.lead_speed = 40 ∧ vdScenarioA.v_ego_kph = 100 ∧
    vdScenarioA.lead_distance = 60 ∧
    defaultConfig.road_type = RoadType.highway ∧
    vdScenarioA.lead_speed / vdScenarioA.v_ego_kph ≤
      defaultConfig.EARLY_OVERTAKE_SPEED_RATIO_MAX ∧
    defaultConfig.EARLY_OVERTAKE_MIN_DISTANCE ≤ vdScenarioA.lead_distance ∧
    vdScenarioA.lead_distance ≤ defaultConfig.EARLY_OVERTAKE_MAX_DISTANCE ∧
    checkEarlyOvertakeConditionsB defaultConfig vdScenarioA = false ∧
    (checkEarlyOvertakeConditions defaultConfig vdScenarioA
      defaultCtrlState).1 = false := by
  refine ⟨rfl, rfl, rfl, rfl, by norm_num [vdScenarioA, defaultVehicleData,
    defaultConfig], by norm_num [vdScenarioA, defaultVehicleData,
    defaultConfig], by norm_num [vdScenarioA, defaultVehicleData,
    defaultConfig], ?_, ?_⟩
  · norm_num [checkEarlyOvertakeConditionsB, checkLeadVehicleMinSpeedB,
      vdScenarioA, defaultVehicleData, defaultConfig]
  · rw [checkEarly_fst]
    norm_num [checkEarlyOvertakeConditionsB, checkLeadVehicleMinSpeedB,
      vdScenarioA, defaultVehicleData, defaultConfig]

/-- C3 (amended): with the leader at 50 km/h (meeting the 50 km/h
anti-congestion floor) and ego at 100 km/h at distance 60 on a highway,
the early trigger fires and check_overtake_conditions returns True even
though the stability debounce has not started and quick-trigger is
inactive. -/
theorem C3_amended_early_trigger :
    checkEarlyOvertakeConditionsB defaultConfig vdEarlyFires = true ∧
    defaultCtrlState.quick_trigger_enabled = false ∧
    defaultCtrlState.condition_stability_timer = 0 ∧
    defaultCtrlState.condition_met_count = 0 ∧
    (checkOvertakeConditions defaultConfig vdEarlyFires 100000
      defaultCtrlState).1 = true := by
  refine ⟨?_, rfl, rfl, rfl, ?_⟩
  · norm_num [checkEarlyOvertakeConditionsB, checkLeadVehicleMinSpeedB,
      vdEarlyFires, defaultVehicleData, defaultConfig]
  · norm_num [checkOvertakeConditions, checkOvertakeOnroadGates,
      checkOpControlCooldown, checkEarlyOvertakeConditions,
      checkEarlyOvertakeConditionsB, checkLeadVehicleMinSpeed,
      checkLeadVehicleMinSpeedB, defaultCtrlState, defaultConfig,
      vdEarlyFires, defaultVehicleData]

/-- C9 (counterexample): with the right lane empty on a highway, the
effectiveness for RIGHT evaluates to 87, below the claimed 95, because of
the fixed right-lane-on-highway penalty (the minimum-advantage requirement
is 0 as claimed). -/
theorem C9_counterexample :
    vdEmptyRight.right_lead_distance ≤ 0 ∧
    minAdvantageReq vdEmptyRight Direction.RIGHT = 0 ∧
    evaluateOvertakeEffectiveness defaultConfig vdEmptyRight
      Direction.RIGHT = 87 ∧
    ¬ (95 ≤ evaluateOvertakeEffectiveness defaultConfig vdEmptyRight
      Direction.RIGHT) := by
  refine ⟨by norm_num [vdEmptyRight, defaultVehicleData], ?_, ?_, ?_⟩ <;>
    norm_num [minAdvantageReq, evaluateOvertakeEffectiveness,
      expectedTargetSpeed, expectedCurrentSpeed, sideLeadSpeed,
      sideLeadDistance, sideLeadRelSpeed, vdEmptyRight, defaultVehicleData,
      defaultConfig]

/-- C9 (amended): an empty target side always sets the effectiveness base
to 95 and a minimum speed-advantage requirement of 0; the returned score
is at least 95 provided the expected target-lane speed is not below the
expected current-lane speed and the direction is not RIGHT on a highway
(the counterexample shows the fixed −8 highway-right penalty otherwise). -/
theorem C9_amended_empty_lane :
    ∀ (cfg : Config) (vd : VehicleData) (d : Direction),
      sideLeadDistance vd d ≤ 0 →
      minAdvantageReq vd d = 0 ∧
      (expectedCurrentSpeed vd ≤ expectedTargetSpeed vd d →
        ¬ (d = Direction.RIGHT ∧ cfg.road_type = RoadType.highway) →
        95 ≤ evaluateOvertakeEffectiveness cfg vd d) := by
  intro cfg vd d hsd
  have hma : minAdvantageReq vd d = 0 := by simp [minAdvantageReq, hsd]
  refine ⟨hma, ?_⟩
  intro hts hdr
  have hno : ¬ (expectedTargetSpeed vd d - expectedCurrentSpeed vd <
      minAdvantageReq vd d) := by
    rw [hma]; linarith
  simp only [evaluateOvertakeEffectiveness, if_pos hsd, if_neg hno,
    if_neg hdr]
  simp [le_max_iff]

/-- C9 (witness): the empty LEFT lane of the concrete snapshot yields a
minimum-advantage requirement of 0 and an effectiveness of at least 95. -/
theorem C9_witness :
    95 ≤ evaluateOvertakeEffectiveness defaultConfig vdEmptyRight
      Direction.LEFT :=
  (C9_amended_empty_lane defaultConfig vdEmptyRight Direction.LEFT
    (by norm_num [sideLeadDistance, vdEmptyRight, defaultVehicleData])).2
    (by norm_num [expectedCurrentSpeed, expectedTargetSpeed,
      sideLeadDistance, sideLeadSpeed, sideLeadRelSpeed, vdEmptyRight,
      defaultVehicleData])
    (by decide)

/-- One selection step never adopts an ineffective direction. -/
theorem selectStep_effective (cfg : Config) (vd : VehicleData)
    (acc : Option Direction × ℚ) (d : Direction)
    (h : ∀ x, acc.1 = some x → isOvertakeEffective cfg vd x = true) :
    ∀ x, (selectStep cfg vd acc d).1 = some x →
      isOvertakeEffective cfg vd x = true := by
  intro x hx
  simp only [selectStep] at hx
  by_cases he : isOvertakeEffective cfg vd d = false
  · rw [if_pos he] at hx
    exact h x hx
  · rw [if_neg he] at hx
    by_cases hs : cfg.PENALTY_THRESHOLD < adjustedScore cfg vd d ∧
        acc.2 < adjustedScore cfg vd d
    · rw [if_pos hs] at hx
      obtain rfl : d = x := by simpa using hx
      simpa using he
    · rw [if_neg hs] at hx
      exact h x hx

/-- The best-direction fold never selects an ineffective direction. -/
theorem selectBest_effective (cfg : Config) (vd : VehicleData) :
    ∀ (dirs : List Direction) (acc : Option Direction × ℚ),
      (∀ x, acc.1 = some x → isOvertakeEffective cfg vd x = true) →
      ∀ x, (dirs.foldl (selectStep cfg vd) acc).1 = some x →
        isOvertakeEffective cfg vd x = true := by
  intro dirs
  induction dirs with
  | nil =>
    intro acc h x hx
    exact h x hx
  | cons d ds ih =>
    intro acc h x hx
    rw [List.foldl_cons] at hx
    exact ih (selectStep cfg vd acc d) (selectStep_effective cfg vd acc d h)
      x hx

/-- C1: an overtake command is only executed for a direction whose
effectiveness score reached the road-type/relative-speed adjusted floor of
is_overtake_effective (65 normal, 70 highway, 75 when the target side's
leader is slower than ego by more than 10 km/h), regardless of the safety
score. -/
theorem C1_effectiveness_floor_gate :
    ∀ (cfg : Config) (vd : VehicleData) (d : Direction),
      executeOvertakeDecision cfg vd = some d →
      minEffectiveness cfg vd d ≤ evaluateOvertakeEffectiveness cfg vd d := by
  intro cfg vd d h
  have heff : isOvertakeEffective cfg vd d = true := by
    simp only [executeOvertakeDecision] at h
    split at h
    · rename_i d' hsel
      split at h
      · obtain rfl : d' = d := by simpa using h
        exact selectBest_effective cfg vd
          (getAvailableOvertakeDirections cfg vd) (none, 0)
          (by intro x hx; simp at hx) d' hsel
      · exact absurd h (by simp)
    · exact absurd h (by simp)
  unfold isOvertakeEffective at heff
  exact of_decide_eq_true heff

/-- C1 (witness): on the concrete four-lane highway snapshot the decision
executes a LEFT overtake, and its effectiveness meets the floor. -/
theorem C1_witness :
    executeOvertakeDecision cfgExec vdExec = some Direction.LEFT ∧
    minEffectiveness cfgExec vdExec Direction.LEFT ≤
      evaluateOvertakeEffectiveness cfgExec vdExec Direction.LEFT := by
  have hexec : executeOvertakeDecision cfgExec vdExec =
      some Direction.LEFT := by
    simp +decide [executeOvertakeDecision, selectBest, selectStep,
      getAvailableOvertakeDirections, isOvertakeEffective, minEffectiveness,
      evaluateOvertakeEffectiveness, evaluateLaneSuitability, adjustedScore,
      actualSpeedAdvantage, expectedTargetSpeed, expectedCurrentSpeed,
      minAdvantageReq, sideLeadSpeed, sideLeadDistance, sideLeadRelSpeed,
      isEmergencyLane, targetLaneOf, cfgExec, vdExec, defaultConfig,
      defaultVehicleData]
    norm_num [min_def, max_def]
  exact ⟨hexec, C1_effectiveness_floor_gate cfgExec vdExec Direction.LEFT
    hexec⟩

end AutoOvertake
